import Mathlib

/-
  Verification development for the chat-with-anything repository.

  The development shallowly embeds two parts of the code base:

  * `src/utils/gemini/client.ts` — the AI conversation client.  The stateful
    chat session of the Gemini SDK is modelled by explicit state passing of the
    list of calls issued so far (the trace); the remote model is an oracle
    function from the prior trace and the parts of the current call to either a
    reply string or a thrown error.  JavaScript exceptions are modelled with
    `Except String`; the `try/catch` of `sendMessageToGemini` is the final
    `match` that converts an error into the apology reply string.

  * `src/hooks/useChats.ts` — the mutation functions and the React Query cache
    updates.  The query cache is a structure holding the list entry (key
    `["chats"]`) and a map for the single-chat entries (keys
    `["chats", chatId]`); the Supabase tables are plain lists of rows.

  Helper modules `@/utils/chat-utils` and `@/utils/gemini/actions` are not part
  of the provided sources; the few values taken from them are modelled from the
  specification and marked as such in their doc comments.
-/

namespace ChatApp

/-- Role of a conversational turn, from the `ChatMessage` interface. -/
inductive Role where
  | user
  | model
deriving DecidableEq, Repr, BEq

/-- One message of the history handed to `sendMessageToGemini`. -/
structure ChatMessage where
  role : Role
  content : String
deriving DecidableEq, Repr, BEq

/-- Image payload, from the `ImageData` interface.  The Node `Buffer` is a
byte sequence, modelled as a list of naturals below 256. -/
structure ImageData where
  buffer : List Nat
  mimeType : String
deriving DecidableEq, Repr, BEq

/-- A part of one SDK call: either plain text or inline binary data with a
MIME type, as passed to `chat.sendMessage`. -/
inductive Part where
  | text (s : String)
  | inlineData (data : String) (mimeType : String)
deriving DecidableEq, Repr, BEq

/-- Which of the call sites of `chat.sendMessage` inside `sendMessageToGemini`
issued a call: the system-instruction send, the history replay loop, or the
final send of the last message. -/
inductive CallKind where
  | system
  | replay
  | final
deriving DecidableEq, Repr, BEq

/-- One call issued to the model API: the call site and the parts sent. -/
structure Call where
  kind : CallKind
  parts : List Part
deriving DecidableEq, Repr, BEq

/-- The remote model: given the calls issued so far in the session and the
parts of the current call, it returns the reply text or throws. -/
abbrev Oracle := List Call → List Part → Except String String

/-- `isGeminiConfigured = () => !!API_KEY` — string truthiness: the key is
configured iff it is not the empty string. -/
def isGeminiConfigured (apiKey : String) : Bool := apiKey ≠ ""

/-- JavaScript truthiness of an optional string parameter: `undefined` and the
empty string are falsy. -/
def jsTruthyOpt : Option String → Bool
  | some s => s ≠ ""
  | none => false

/-- JavaScript `String.prototype.includes`: substring containment. -/
def jsIncludes (s pat : String) : Bool := (s.splitOn pat).length > 1

/-- JavaScript `String.prototype.trim`: drop leading and trailing
whitespace. -/
def jsTrim (s : String) : String :=
  String.mk
    (((s.toList.dropWhile Char.isWhitespace).reverse.dropWhile
        Char.isWhitespace).reverse)

/-- The base64 alphabet, for `Buffer.prototype.toString("base64")`. -/
def base64Table : List Char :=
  "ABCDEFGHIJKLMNOPQRSTUVWXYZabcdefghijklmnopqrstuvwxyz0123456789+/".toList

/-- Character of the base64 alphabet at an index. -/
def b64c (n : Nat) : Char := base64Table.getD n '?'

/-- Standard base64 encoding of a byte sequence, modelling
`imageData.buffer.toString("base64")`. -/
def base64Encode : List Nat → String
  | [] => ""
  | [a] =>
    let a := a % 256
    String.mk [b64c (a / 4), b64c (a % 4 * 16)] ++ "=="
  | [a, b] =>
    let a := a % 256
    let b := b % 256
    String.mk [b64c (a / 4), b64c (a % 4 * 16 + b / 16), b64c (b % 16 * 4)] ++ "="
  | a :: b :: c :: rest =>
    let a' := a % 256
    let b' := b % 256
    let c' := c % 256
    String.mk [b64c (a' / 4), b64c (a' % 4 * 16 + b' / 16),
      b64c (b' % 16 * 4 + c' / 64), b64c (c' % 64)] ++ base64Encode rest

/-- The string returned by the `catch` block of `sendMessageToGemini`,
embedding the caught error message. -/
def errorReplyText (e : String) : String :=
  "I\x27m sorry, I encountered an error while processing your request. " ++ e

/-- The TypeError raised when `messages[messages.length - 1].content` is read
on an empty history (`messages[-1]` is `undefined`). -/
def undefinedContentError : String :=
  "Cannot read properties of undefined (reading content)"

/-- One `await chat.sendMessage(parts)`: the call is appended to the trace and
the oracle produces the reply (or throws while reading the response). -/
def chatSend (oracle : Oracle) (kind : CallKind) (parts : List Part)
    (calls : List Call) : List Call × Except String String :=
  (calls ++ [⟨kind, parts⟩], oracle calls parts)

/-- The replay loop `for (let i = 0; i < messages.length - 1; i++)`: each
message is sent as its own turn and the reply is discarded; a thrown reply
aborts the loop. -/
def replayMessages (oracle : Oracle) :
    List ChatMessage → List Call → List Call × Except String Unit
  | [], calls => (calls, .ok ())
  | msg :: rest, calls =>
    match chatSend oracle .replay [.text msg.content] calls with
    | (calls1, .error e) => (calls1, .error e)
    | (calls1, .ok _) => replayMessages oracle rest calls1

/-- Choice of the system prompt inside the `if (fileContent)` block, for a
truthy `fileContent` value `fc`.  `ytPrompt` and `ragPrompt` stand for
`createYoutubeSystemPrompt` and `createRagSystemPrompt`, imported from modules
outside the provided sources, and are therefore parameters.  Reading
`messages[messages.length - 1].content` throws on an empty history. -/
def systemPromptChoice (ytPrompt ragPrompt : String → String)
    (messages : List ChatMessage) (fc : String) : Except String String :=
  if fc = "IMAGE_FILE" then .ok ""
  else if fc = "YOUTUBE_TRANSCRIPT" then .ok (ytPrompt fc)
  else
    match messages.getLast? with
    | none => .error undefinedContentError
    | some lastMsg =>
      if jsIncludes lastMsg.content "YouTube" then .ok (ytPrompt fc)
      else .ok (ragPrompt fc)

/-- The `if (fileContent) { ... }` block: choose a system prompt and, when it
is non-empty, send it as a preliminary turn (discarding the acknowledgement).
Returns the calls issued by the block and either unit or a thrown error. -/
def systemStage (oracle : Oracle) (ytPrompt ragPrompt : String → String)
    (messages : List ChatMessage) (fileContent : Option String) :
    List Call × Except String Unit :=
  if jsTruthyOpt fileContent then
    match systemPromptChoice ytPrompt ragPrompt messages (fileContent.getD "") with
    | .error e => ([], .error e)
    | .ok sp =>
      if sp ≠ "" then
        let res := chatSend oracle .system
          [.text ("I need you to act as a document assistant with the following instructions: " ++ sp)]
          []
        (res.1, match res.2 with
          | .error e => .error e
          | .ok _ => .ok ())
      else ([], .ok ())
  else ([], .ok ())

/-- The body of the `try` block of `sendMessageToGemini`: configuration check,
system-prompt stage, replay of all but the last message, then the final send
(with the image attached when present).  Returns the full trace of calls and
either the reply text or the first thrown error. -/
def geminiBody (oracle : Oracle) (ytPrompt ragPrompt : String → String)
    (apiKey : String) (messages : List ChatMessage)
    (fileContent : Option String) (imageData : Option ImageData) :
    List Call × Except String String :=
  if isGeminiConfigured apiKey = false then
    ([], .error "Gemini API key is not configured")
  else
    match systemStage oracle ytPrompt ragPrompt messages fileContent with
    | (calls1, .error e) => (calls1, .error e)
    | (calls1, .ok _) =>
      match (if messages.length > 1 then
              replayMessages oracle messages.dropLast calls1
            else (calls1, .ok ())) with
      | (calls2, .error e) => (calls2, .error e)
      | (calls2, .ok _) =>
        match messages.getLast? with
        | none => (calls2, .error undefinedContentError)
        | some lastUserMessage =>
          match imageData with
          | some img =>
            chatSend oracle .final
              [.text lastUserMessage.content,
               .inlineData (base64Encode img.buffer) img.mimeType] calls2
          | none =>
            chatSend oracle .final [.text lastUserMessage.content] calls2

/-- `sendMessageToGemini`: run the try-block body; a thrown error is caught
and converted into the apology reply string.  The result is the trace of
calls issued to the model together with the returned string. -/
def sendMessageToGemini (oracle : Oracle) (ytPrompt ragPrompt : String → String)
    (apiKey : String) (messages : List ChatMessage)
    (fileContent : Option String) (imageData : Option ImageData) :
    List Call × String :=
  match geminiBody oracle ytPrompt ragPrompt apiKey messages fileContent imageData with
  | (calls, .ok r) => (calls, r)
  | (calls, .error e) => (calls, errorReplyText e)

end ChatApp

namespace ChatApp

/-- The call built by the replay loop for one message. -/
def replayCall (m : ChatMessage) : Call := ⟨.replay, [.text m.content]⟩

/-- With an oracle that never throws, the replay loop sends every message of
the list as its own turn, in order, appending to the trace. -/
theorem replayMessages_ok (f : List Call → List Part → String)
    (msgs : List ChatMessage) : ∀ calls : List Call,
    replayMessages (fun h p => .ok (f h p)) msgs calls
      = (calls ++ msgs.map replayCall, .ok ()) := by
  induction msgs with
  | nil => intro calls; simp [replayMessages]
  | cons m rest ih =>
    intro calls
    simp [replayMessages, chatSend, ih, replayCall]

/-- A history with at least one message either has exactly one message or
has length greater than one; in the first case `dropLast` is empty. -/
theorem dropLast_nil_of_not_long (msgs : List ChatMessage)
    (hne : msgs ≠ []) (h : ¬ msgs.length > 1) : msgs.dropLast = [] := by
  cases msgs with
  | nil => exact absurd rfl hne
  | cons a t =>
    cases t with
    | nil => rfl
    | cons b t2 => simp at h

/-- With a configured key, no file content, no image and a non-throwing
oracle, the try-block body replays all but the last message in order and then
sends the last message in a final call, returning the oracle's reply to that
final call. -/
theorem geminiBody_text_only (f : List Call → List Part → String)
    (ytPrompt ragPrompt : String → String) (apiKey : String)
    (hk : apiKey ≠ "") (msgs : List ChatMessage) (hne : msgs ≠ []) :
    geminiBody (fun h p => .ok (f h p)) ytPrompt ragPrompt apiKey msgs none none
      = (msgs.dropLast.map replayCall
          ++ [⟨.final, [.text (msgs.getLast hne).content]⟩],
         .ok (f (msgs.dropLast.map replayCall)
                [.text (msgs.getLast hne).content])) := by
  have hcfg : isGeminiConfigured apiKey = true := by
    simp [isGeminiConfigured, hk]
  have hstage : systemStage (fun h p => .ok (f h p)) ytPrompt ragPrompt msgs none
      = ([], .ok ()) := by
    simp [systemStage, jsTruthyOpt]
  have hlast : msgs.getLast? = some (msgs.getLast hne) :=
    List.getLast?_eq_getLast msgs hne
  have hloop : (if msgs.length > 1 then
        replayMessages (fun h p => .ok (f h p)) msgs.dropLast []
      else (([] : List Call), Except.ok ()))
      = (msgs.dropLast.map replayCall, .ok ()) := by
    by_cases h : msgs.length > 1
    · simp [h, replayMessages_ok]
    · simp [h, dropLast_nil_of_not_long msgs hne h]
  simp only [geminiBody, hcfg, hstage, hloop, hlast, chatSend]
  simp

/-- Claim C2: for every message history of length at least one (any roles),
with a configured key, no file content, no image and a non-throwing oracle,
`sendMessageToGemini` sends each of the first `n-1` messages as its own
replay turn in original order, each reply discarded (the result does not
depend on them), and then sends the final message in a last, separate call
whose reply is the returned value. -/
theorem sendMessage_replays_all (f : List Call → List Part → String)
    (ytPrompt ragPrompt : String → String) (apiKey : String)
    (hk : apiKey ≠ "") (msgs : List ChatMessage) (hne : msgs ≠ []) :
    sendMessageToGemini (fun h p => .ok (f h p)) ytPrompt ragPrompt apiKey
        msgs none none
      = (msgs.dropLast.map replayCall
          ++ [⟨.final, [.text (msgs.getLast hne).content]⟩],
         f (msgs.dropLast.map replayCall)
           [.text (msgs.getLast hne).content]) := by
  simp [sendMessageToGemini,
    geminiBody_text_only f ytPrompt ragPrompt apiKey hk msgs hne]

/-- Witness for C2 at a concrete two-message history. -/
theorem sendMessage_replays_all_witness :
    ("k" : String) ≠ "" ∧
    ([⟨.user, "hi"⟩, ⟨.model, "yo"⟩] : List ChatMessage) ≠ [] ∧
    sendMessageToGemini (fun _ _ => .ok "R") id id "k"
        [⟨.user, "hi"⟩, ⟨.model, "yo"⟩] none none
      = ([⟨.replay, [.text "hi"]⟩, ⟨.final, [.text "yo"]⟩], "R") := by
  refine ⟨by decide, by decide, ?_⟩
  have h := sendMessage_replays_all (fun _ _ => "R") id id "k"
    (by decide) [⟨.user, "hi"⟩, ⟨.model, "yo"⟩] (by decide)
  simpa [replayCall] using h

/-- Claim C1: for the history `[{user,"A"},{model,"B"},{user,"C"}]` with no
file content and no image, there is exactly one replay call carrying "A"
(its reply unused: the result does not depend on it) and exactly one final
call carrying "C", and the returned value is the oracle's reply to that
final call. -/
theorem sendMessage_three_message_history (f : List Call → List Part → String)
    (ytPrompt ragPrompt : String → String) (apiKey : String)
    (hk : apiKey ≠ "") :
    let out := sendMessageToGemini (fun h p => .ok (f h p)) ytPrompt ragPrompt
      apiKey [⟨.user, "A"⟩, ⟨.model, "B"⟩, ⟨.user, "C"⟩] none none
    (out.1.countP
        (fun c => c.kind == CallKind.replay && c.parts.contains (.text "A"))) = 1
    ∧ (out.1.countP
        (fun c => c.kind == CallKind.final && c.parts.contains (.text "C"))) = 1
    ∧ out.2 = f [replayCall ⟨.user, "A"⟩, replayCall ⟨.model, "B"⟩]
        [.text "C"] := by
  have h := geminiBody_text_only f ytPrompt ragPrompt apiKey hk
    [⟨.user, "A"⟩, ⟨.model, "B"⟩, ⟨.user, "C"⟩] (by simp)
  refine ⟨?_, ?_, ?_⟩ <;>
    simp [sendMessageToGemini, h, replayCall] <;> decide

/-- Witness for C1 at a concrete oracle and key. -/
theorem sendMessage_three_message_history_witness :
    ("k" : String) ≠ "" ∧
    (let out := sendMessageToGemini (fun _ _ => .ok "R") id id "k"
      [⟨.user, "A"⟩, ⟨.model, "B"⟩, ⟨.user, "C"⟩] none none
    (out.1.countP
        (fun c => c.kind == CallKind.replay && c.parts.contains (.text "A"))) = 1
    ∧ (out.1.countP
        (fun c => c.kind == CallKind.final && c.parts.contains (.text "C"))) = 1
    ∧ out.2 = "R") := by
  refine ⟨by decide, ?_⟩
  simpa using sendMessage_three_message_history (fun _ _ => "R") id id "k"
    (by decide)

/-- With file content `IMAGE_FILE` the system-prompt block chooses the empty
prompt and sends nothing: the stage issues no call. -/
theorem systemStage_image_file (oracle : Oracle)
    (ytPrompt ragPrompt : String → String) (msgs : List ChatMessage) :
    systemStage oracle ytPrompt ragPrompt msgs (some "IMAGE_FILE")
      = ([], .ok ()) := by
  simp [systemStage, jsTruthyOpt, systemPromptChoice]

/-- With a configured key, file content `IMAGE_FILE`, an image payload and a
non-throwing oracle, the try-block body issues the replay calls and then one
final call carrying the last message's text together with the base64 inline
image data and its MIME type. -/
theorem geminiBody_image_file (f : List Call → List Part → String)
    (ytPrompt ragPrompt : String → String) (apiKey : String)
    (hk : apiKey ≠ "") (msgs : List ChatMessage) (hne : msgs ≠ [])
    (img : ImageData) :
    geminiBody (fun h p => .ok (f h p)) ytPrompt ragPrompt apiKey msgs
        (some "IMAGE_FILE") (some img)
      = (msgs.dropLast.map replayCall
          ++ [⟨.final, [.text (msgs.getLast hne).content,
                .inlineData (base64Encode img.buffer) img.mimeType]⟩],
         .ok (f (msgs.dropLast.map replayCall)
                [.text (msgs.getLast hne).content,
                 .inlineData (base64Encode img.buffer) img.mimeType])) := by
  have hcfg : isGeminiConfigured apiKey = true := by
    simp [isGeminiConfigured, hk]
  have hlast : msgs.getLast? = some (msgs.getLast hne) :=
    List.getLast?_eq_getLast msgs hne
  have hloop : (if msgs.length > 1 then
        replayMessages (fun h p => .ok (f h p)) msgs.dropLast []
      else (([] : List Call), Except.ok ()))
      = (msgs.dropLast.map replayCall, .ok ()) := by
    by_cases h : msgs.length > 1
    · simp [h, replayMessages_ok]
    · simp [h, dropLast_nil_of_not_long msgs hne h]
  simp only [geminiBody, hcfg, systemStage_image_file, hloop, hlast, chatSend]
  simp

/-- Claim C5: for every non-empty history with file content `IMAGE_FILE` and
an image payload, no system-instruction call is issued, and the image (as
base64 inline data with its MIME type) is attached only to the final call,
alongside the final message's text. -/
theorem sendMessage_image_final_only (f : List Call → List Part → String)
    (ytPrompt ragPrompt : String → String) (apiKey : String)
    (hk : apiKey ≠ "") (msgs : List ChatMessage) (hne : msgs ≠ [])
    (img : ImageData) :
    let out := sendMessageToGemini (fun h p => .ok (f h p)) ytPrompt ragPrompt
      apiKey msgs (some "IMAGE_FILE") (some img)
    out = (msgs.dropLast.map replayCall
            ++ [⟨.final, [.text (msgs.getLast hne).content,
                  .inlineData (base64Encode img.buffer) img.mimeType]⟩],
           f (msgs.dropLast.map replayCall)
             [.text (msgs.getLast hne).content,
              .inlineData (base64Encode img.buffer) img.mimeType])
    ∧ (∀ c ∈ out.1, c.kind ≠ CallKind.system)
    ∧ (∀ c ∈ out.1.dropLast, ∀ d mt, Part.inlineData d mt ∉ c.parts) := by
  have hbody := geminiBody_image_file f ytPrompt ragPrompt apiKey hk msgs hne img
  have hout : sendMessageToGemini (fun h p => .ok (f h p)) ytPrompt ragPrompt
      apiKey msgs (some "IMAGE_FILE") (some img)
      = (msgs.dropLast.map replayCall
          ++ [⟨.final, [.text (msgs.getLast hne).content,
                .inlineData (base64Encode img.buffer) img.mimeType]⟩],
         f (msgs.dropLast.map replayCall)
           [.text (msgs.getLast hne).content,
            .inlineData (base64Encode img.buffer) img.mimeType]) := by
    simp [sendMessageToGemini, hbody]
  refine ⟨hout, ?_, ?_⟩
  · intro c hc
    rw [hout] at hc
    simp only [List.mem_append, List.mem_map, List.mem_singleton] at hc
    rcases hc with ⟨m, _, rfl⟩ | rfl
    · simp [replayCall]
    · simp
  · intro c hc d mt
    rw [hout] at hc
    simp only [List.dropLast_concat] at hc
    rcases List.mem_map.mp hc with ⟨m, _, rfl⟩
    simp [replayCall]

/-- Witness for C5 at a concrete history, image and oracle. -/
theorem sendMessage_image_final_only_witness :
    ("k" : String) ≠ "" ∧
    ([⟨.user, "what is this"⟩] : List ChatMessage) ≠ [] ∧
    sendMessageToGemini (fun _ _ => .ok "a cat") id id "k"
        [⟨.user, "what is this"⟩] (some "IMAGE_FILE")
        (some ⟨[77, 97], "image/png"⟩)
      = ([⟨.final, [.text "what is this",
            .inlineData "TWE=" "image/png"]⟩], "a cat") := by
  refine ⟨by decide, by decide, ?_⟩
  have h := (sendMessage_image_final_only (fun _ _ => "a cat") id id "k"
    (by decide) [⟨.user, "what is this"⟩] (by decide)
    ⟨[77, 97], "image/png"⟩).1
  simpa [replayCall, base64Encode, b64c, base64Table] using h

/-- Every call issued by the system-prompt stage comes from its single
`chat.sendMessage` site: its kind is `system`. -/
theorem systemStage_calls_system (oracle : Oracle)
    (ytPrompt ragPrompt : String → String) (msgs : List ChatMessage)
    (fileContent : Option String) :
    ∀ c ∈ (systemStage oracle ytPrompt ragPrompt msgs fileContent).1,
      c.kind = CallKind.system := by
  intro c hc
  unfold systemStage at hc
  by_cases ht : jsTruthyOpt fileContent = true
  · simp only [ht, if_true] at hc
    rcases hsp : systemPromptChoice ytPrompt ragPrompt msgs (fileContent.getD "")
      with e | sp <;> simp only [hsp] at hc
    · simp at hc
    · by_cases hs : sp = ""
      · simp [hs] at hc
      · simp only [hs, ne_eq, not_false_eq_true, if_true, chatSend] at hc
        simp at hc
        rw [hc]
  · simp [ht] at hc

/-- For the empty history, the try-block body always throws: the initial
configuration check, the system-prompt stage, or the read of
`messages[messages.length - 1]` fails, and the only call possibly issued
before that is the system-instruction one. -/
theorem geminiBody_nil_messages (oracle : Oracle)
    (ytPrompt ragPrompt : String → String) (apiKey : String)
    (fileContent : Option String) (imageData : Option ImageData) :
    (∃ e, (geminiBody oracle ytPrompt ragPrompt apiKey [] fileContent
      imageData).2 = .error e)
    ∧ ∀ c ∈ (geminiBody oracle ytPrompt ragPrompt apiKey [] fileContent
        imageData).1, c.kind = CallKind.system := by
  unfold geminiBody
  by_cases hk : isGeminiConfigured apiKey = false
  · simp [hk]
  · simp only [hk, if_false]
    rcases hss : systemStage oracle ytPrompt ragPrompt [] fileContent
      with ⟨calls1, r1⟩
    have hcs : ∀ c ∈ calls1, c.kind = CallKind.system := by
      intro c hc
      exact systemStage_calls_system oracle ytPrompt ragPrompt [] fileContent c
        (by rw [hss]; exact hc)
    cases r1 with
    | error e =>
      constructor
      · exact ⟨e, by simp [hss]⟩
      · intro c hc
        simp [hss] at hc
        exact hcs c hc
    | ok u =>
      constructor
      · exact ⟨undefinedContentError, by simp [hss]⟩
      · intro c hc
        simp [hss] at hc
        exact hcs c hc

/-- Claim C10: for the empty message history, `sendMessageToGemini` issues no
final model call and returns the error-embedding reply string rather than a
model reply, for every key, file content, image payload and oracle. -/
theorem sendMessage_empty_history (oracle : Oracle)
    (ytPrompt ragPrompt : String → String) (apiKey : String)
    (fileContent : Option String) (imageData : Option ImageData) :
    let out := sendMessageToGemini oracle ytPrompt ragPrompt apiKey []
      fileContent imageData
    (∀ c ∈ out.1, c.kind ≠ CallKind.final)
    ∧ ∃ e, out.2 = errorReplyText e := by
  obtain ⟨⟨e, he⟩, hcalls⟩ :=
    geminiBody_nil_messages oracle ytPrompt ragPrompt apiKey fileContent imageData
  rcases hb : geminiBody oracle ytPrompt ragPrompt apiKey [] fileContent imageData
    with ⟨calls, r⟩
  rw [hb] at he hcalls
  simp only at he
  subst he
  constructor
  · intro c hc
    rw [show (sendMessageToGemini oracle ytPrompt ragPrompt apiKey []
        fileContent imageData).1 = calls by simp [sendMessageToGemini, hb]] at hc
    rw [hcalls c hc]
    simp
  · exact ⟨e, by simp [sendMessageToGemini, hb]⟩

/-- Witness for C10 at a concrete oracle, key and empty history. -/
theorem sendMessage_empty_history_witness :
    (∀ c ∈ (sendMessageToGemini (fun _ _ => .ok "R") id id "k" []
        none none).1, c.kind ≠ CallKind.final)
    ∧ ∃ e, (sendMessageToGemini (fun _ _ => .ok "R") id id "k" []
        none none).2 = errorReplyText e :=
  sendMessage_empty_history (fun _ _ => .ok "R") id id "k" none none

/-- Claim C3: `sendMessageToGemini` is total and never propagates an
exception: when the try-block body succeeds its reply is returned unchanged,
and when it throws an error message the returned string is the apology text
with that error message embedded (appended to a fixed prefix). -/
theorem sendMessage_never_throws (oracle : Oracle)
    (ytPrompt ragPrompt : String → String) (apiKey : String)
    (msgs : List ChatMessage) (fileContent : Option String)
    (imageData : Option ImageData) :
    (∃ r, (geminiBody oracle ytPrompt ragPrompt apiKey msgs fileContent
        imageData).2 = .ok r
      ∧ (sendMessageToGemini oracle ytPrompt ragPrompt apiKey msgs fileContent
          imageData).2 = r)
    ∨ (∃ e p, (geminiBody oracle ytPrompt ragPrompt apiKey msgs fileContent
        imageData).2 = .error e
      ∧ (sendMessageToGemini oracle ytPrompt ragPrompt apiKey msgs fileContent
          imageData).2 = p ++ e) := by
  rcases hb : geminiBody oracle ytPrompt ragPrompt apiKey msgs fileContent
    imageData with ⟨calls, r⟩
  cases r with
  | ok v =>
    exact Or.inl ⟨v, by simp [hb], by simp [sendMessageToGemini, hb]⟩
  | error e =>
    exact Or.inr ⟨e,
      "I\x27m sorry, I encountered an error while processing your request. ",
      by simp [hb], by simp [sendMessageToGemini, hb, errorReplyText]⟩

/-- Claim C4: if the API key is the empty string, `sendMessageToGemini`
returns the error-shaped configuration reply and issues zero calls to the
model API, for every history, file content and image payload. -/
theorem sendMessage_unconfigured_no_calls (oracle : Oracle)
    (ytPrompt ragPrompt : String → String) (messages : List ChatMessage)
    (fileContent : Option String) (imageData : Option ImageData) :
    sendMessageToGemini oracle ytPrompt ragPrompt "" messages fileContent imageData
      = ([], errorReplyText "Gemini API key is not configured") := by
  simp [sendMessageToGemini, geminiBody, isGeminiConfigured]

/-
  Embedding of `src/hooks/useChats.ts`: the Supabase rows, the React Query
  cache and its update helpers, and the mutation functions for starting a
  chat with a file and for deleting a chat.
-/

/-- A row of the `chats` table, with its identity, owner and mutable data.
`title` stands for the mutable fields of the row. -/
structure TypeChat where
  id : String
  user_id : String
  title : String
deriving DecidableEq, Repr, BEq

/-- A row of the `files` table as selected by the ownership check
(`select("id, user_id")`). -/
structure FileRow where
  id : String
  user_id : String
deriving DecidableEq, Repr, BEq

/-- Modelled from the spec: `createChatError` of `@/utils/chat-utils` (not in
the provided sources) builds a tagged error from a message, an error kind and
a status code, matching its three-argument call sites in `useChats.ts`. -/
structure ChatError where
  message : String
  code : String
  status : Nat
deriving DecidableEq, Repr, BEq

/-- Build a `ChatError`, mirroring `createChatError(message, code, status)`. -/
def createChatError (message code : String) (status : Nat) : ChatError :=
  ⟨message, code, status⟩

/-- Modelled from the spec: `validateChatId` of `@/utils/chat-utils` (not in
the provided sources); the spec says input validation requires non-empty
identifiers. -/
def validateChatId (id : String) : Bool := id ≠ ""

/-- The React Query cache as seen by `useChats`: the list entry under the key
`["chats"]` (absent until set) and the single-chat entries under the keys
`["chats", chatId]`. -/
structure Cache where
  list : Option (List TypeChat)
  single : String → Option TypeChat

/-- `updateChatListCache`: replace the list entry by the updater applied to
the old entry (`queryClient.setQueryData(CHATS_QUERY_KEY, updater)`). -/
def updateChatListCache (updater : Option (List TypeChat) → List TypeChat)
    (c : Cache) : Cache :=
  { c with list := some (updater c.list) }

/-- `updateChatInCache`: set the single-chat entry keyed by the updated
chat's id to the updated chat, and replace every list element with that id by
the updated chat (`oldData.map(...)`); an absent list becomes the one-element
list. -/
def updateChatInCache (updatedChat : TypeChat) (c : Cache) : Cache :=
  let c1 : Cache :=
    { c with single := fun k =>
        if k = updatedChat.id then some updatedChat else c.single k }
  updateChatListCache
    (fun oldData =>
      match oldData with
      | none => [updatedChat]
      | some l => l.map fun chat =>
          if chat.id = updatedChat.id then updatedChat else chat)
    c1

/-- `removeChatFromCache`: drop the single-chat entry keyed by the id
(`queryClient.removeQueries`) and filter every element with that id out of
the list entry (`oldData?.filter(...) || []`). -/
def removeChatFromCache (chatId : String) (c : Cache) : Cache :=
  let c1 : Cache :=
    { c with single := fun k => if k = chatId then none else c.single k }
  updateChatListCache
    (fun oldData =>
      match oldData with
      | some l => l.filter fun chat => chat.id ≠ chatId
      | none => [])
    c1

/-- Outcome of the start-chat-with-file mutation function: the returned chat
or thrown error, and whether the chat-creation call
(`createChatWithGemini`) was reached. -/
structure StartChatOutcome where
  result : Except ChatError TypeChat
  createChatCalled : Bool
deriving Repr

/-- The mutation function of `startChatWithFileMutation`.  `userId` comes
from `useUser` (`none`/empty is falsy), `supabaseAvailable` models the
`supabase` client being non-null, `files` is the `files` table,
`fileCheckError` a possible store error of the ownership query, and
`createChatResult` the value returned by `createChatWithGemini` (an action
outside the provided sources, hence a parameter; `none` models a falsy
response). -/
def startChatWithFileMutationFn (userId : Option String)
    (supabaseAvailable : Bool) (files : List FileRow)
    (fileCheckError : Option ChatError) (createChatResult : Option TypeChat)
    (fileId : String) : StartChatOutcome :=
  if jsTruthyOpt userId = false then
    ⟨.error (createChatError "User not authenticated" "NO_USER_ID" 401), false⟩
  else if supabaseAvailable = false then
    ⟨.error (createChatError "Database connection not available" "NO_SUPABASE" 500),
      false⟩
  else if jsTrim fileId = "" then
    ⟨.error (createChatError "Valid file ID is required" "INVALID_FILE_ID" 400),
      false⟩
  else
    match fileCheckError with
    | some e => ⟨.error e, false⟩
    | none =>
      match files.find? (fun fr => fr.id = fileId) with
      | none =>
        ⟨.error (createChatError "File not found" "FILE_NOT_FOUND" 404), false⟩
      | some fileCheck =>
        if fileCheck.user_id ≠ userId.getD "" then
          ⟨.error (createChatError "File access denied" "FILE_ACCESS_DENIED" 403),
            false⟩
        else
          match createChatResult with
          | none =>
            ⟨.error (createChatError "Failed to create chat - invalid response"
                "INVALID_CHAT_RESPONSE" 500), true⟩
          | some chat =>
            if chat.id = "" then
              ⟨.error (createChatError "Failed to create chat - invalid response"
                  "INVALID_CHAT_RESPONSE" 500), true⟩
            else ⟨.ok chat, true⟩

/-- The mutation function of `deleteChatMutation`: after validation, delete
the rows of the `chats` table matching both the id and the owner filter (a
zero-row match is not an error), and return the chat id.  `storeError`
models a store-reported failure of the delete call. -/
def deleteChatMutationFn (userId : Option String) (supabaseAvailable : Bool)
    (chats : List TypeChat) (storeError : Option ChatError)
    (chatId : String) : Except ChatError (List TypeChat × String) :=
  if jsTruthyOpt userId = false then
    .error (createChatError "User not authenticated" "NO_USER_ID" 401)
  else if supabaseAvailable = false then
    .error (createChatError "Database connection not available" "NO_SUPABASE" 500)
  else if validateChatId chatId = false then
    .error (createChatError "Valid chat ID is required" "INVALID_CHAT_ID" 400)
  else
    match storeError with
    | some e => .error e
    | none =>
      .ok (chats.filter
            (fun r => ¬(r.id = chatId ∧ r.user_id = userId.getD "")), chatId)

/-- Claim C6: when the file row found for the given identifier is owned by a
different user, the start-chat-with-file mutation fails with the
`FILE_ACCESS_DENIED` error and the chat-creation call is never reached, so no
chat is created or inserted. -/
theorem startChatWithFile_denied (u : String) (hu : u ≠ "")
    (files : List FileRow) (createChatResult : Option TypeChat)
    (fileId : String) (hf : jsTrim fileId ≠ "") (fr : FileRow)
    (hfind : files.find? (fun r => r.id = fileId) = some fr)
    (hown : fr.user_id ≠ u) :
    startChatWithFileMutationFn (some u) true files none createChatResult fileId
      = ⟨.error (createChatError "File access denied" "FILE_ACCESS_DENIED" 403),
         false⟩ := by
  simp [startChatWithFileMutationFn, jsTruthyOpt, hu, hf, hfind, hown]

/-- Witness for C6: a file owned by a different user is denied. -/
theorem startChatWithFile_denied_witness :
    ("alice" : String) ≠ "" ∧ jsTrim "f1" ≠ "" ∧
    List.find? (fun r => r.id = "f1") [(⟨"f1", "bob"⟩ : FileRow)]
      = some ⟨"f1", "bob"⟩ ∧
    ("bob" : String) ≠ "alice" ∧
    startChatWithFileMutationFn (some "alice") true [⟨"f1", "bob"⟩] none
        (some ⟨"c9", "alice", "t"⟩) "f1"
      = ⟨.error (createChatError "File access denied" "FILE_ACCESS_DENIED" 403),
         false⟩ := by
  refine ⟨by decide, by decide, by decide, by decide, ?_⟩
  exact startChatWithFile_denied "alice" (by decide) [⟨"f1", "bob"⟩]
    (some ⟨"c9", "alice", "t"⟩) "f1" (by decide) ⟨"f1", "bob"⟩ (by decide)
    (by decide)

/-- Claim C9: for every chat id that passes validation (and an authenticated
caller with no store failure), the delete mutation resolves successfully with
the chat id, whether or not any row matched the id-and-owner filter; in
particular a delete matching zero rows returns the same success value as one
that removed a row, and no `CHAT_NOT_FOUND` error is raised. -/
theorem deleteChat_zero_rows_ok (u : String) (hu : u ≠ "")
    (chats : List TypeChat) (chatId : String)
    (hv : validateChatId chatId = true) :
    deleteChatMutationFn (some u) true chats none chatId
      = .ok (chats.filter (fun r => ¬(r.id = chatId ∧ r.user_id = u)), chatId)
    ∧ ((∀ r ∈ chats, ¬(r.id = chatId ∧ r.user_id = u)) →
        deleteChatMutationFn (some u) true chats none chatId
          = .ok (chats, chatId)) := by
  have h1 : deleteChatMutationFn (some u) true chats none chatId
      = .ok (chats.filter (fun r => ¬(r.id = chatId ∧ r.user_id = u)),
             chatId) := by
    simp [deleteChatMutationFn, jsTruthyOpt, hu, hv]
  refine ⟨h1, fun hall => ?_⟩
  rw [h1]
  have h2 : chats.filter (fun r => ¬(r.id = chatId ∧ r.user_id = u)) = chats :=
    List.filter_eq_self.mpr (fun a ha => decide_eq_true (hall a ha))
  rw [h2]

/-- Witness for C9: deleting an id matching no row still succeeds with the
id. -/
theorem deleteChat_zero_rows_ok_witness :
    ("alice" : String) ≠ "" ∧ validateChatId "c1" = true ∧
    deleteChatMutationFn (some "alice") true [⟨"c2", "alice", "t"⟩] none "c1"
      = .ok ([⟨"c2", "alice", "t"⟩], "c1") := by
  refine ⟨by decide, by decide, ?_⟩
  exact (deleteChat_zero_rows_ok "alice" (by decide) [⟨"c2", "alice", "t"⟩]
    "c1" (by decide)).2 (by simp)

/-- Claim C7: on success the delete mutation's `onSuccess` handler
`removeChatFromCache` runs with the returned chat id: the single-item cache
entry keyed by that id is dropped, every element with that id is removed from
the list cache, and entries under every other key are unchanged. -/
theorem deleteChat_onSuccess_cache (chatId : String) (cache : Cache) :
    let cache1 := removeChatFromCache chatId cache
    cache1.single chatId = none
    ∧ (∀ k, k ≠ chatId → cache1.single k = cache.single k)
    ∧ cache1.list
        = some ((cache.list.getD []).filter fun chat => chat.id ≠ chatId)
    ∧ (∀ l, cache1.list = some l → ∀ chat ∈ l, chat.id ≠ chatId) := by
  have h3 : (removeChatFromCache chatId cache).list
      = some ((cache.list.getD []).filter fun chat => chat.id ≠ chatId) := by
    cases h : cache.list <;> simp [removeChatFromCache, updateChatListCache, h]
  refine ⟨?_, ?_, h3, ?_⟩
  · simp [removeChatFromCache, updateChatListCache]
  · intro k hk
    simp [removeChatFromCache, updateChatListCache, hk]
  · intro l hl chat hc
    rw [h3] at hl
    cases hl
    simpa using (List.mem_filter.mp hc).2

/-- Witness for C7: the deleted id leaves the cache, the other entries
stay. -/
theorem deleteChat_onSuccess_cache_witness :
    ("c2" : String) ≠ "c1" ∧
    (removeChatFromCache "c1"
        ⟨some [⟨"c1", "u", "a"⟩, ⟨"c2", "u", "b"⟩], fun _ => none⟩).single "c1"
      = none ∧
    (removeChatFromCache "c1"
        ⟨some [⟨"c1", "u", "a"⟩, ⟨"c2", "u", "b"⟩], fun _ => none⟩).single "c2"
      = none ∧
    (removeChatFromCache "c1"
        ⟨some [⟨"c1", "u", "a"⟩, ⟨"c2", "u", "b"⟩], fun _ => none⟩).list
      = some [⟨"c2", "u", "b"⟩] := by
  refine ⟨by decide, ?_, ?_, ?_⟩
  · exact (deleteChat_onSuccess_cache "c1"
      ⟨some [⟨"c1", "u", "a"⟩, ⟨"c2", "u", "b"⟩], fun _ => none⟩).1
  · exact ((deleteChat_onSuccess_cache "c1"
      ⟨some [⟨"c1", "u", "a"⟩, ⟨"c2", "u", "b"⟩], fun _ => none⟩).2.1 "c2"
      (by decide)).trans rfl
  · exact ((deleteChat_onSuccess_cache "c1"
      ⟨some [⟨"c1", "u", "a"⟩, ⟨"c2", "u", "b"⟩], fun _ => none⟩).2.2.1).trans
      (by decide)

/-- Claim C8: on success the update mutation's `onSuccess` handler
`updateChatInCache` runs with the returned chat `c`: the single-item entry
keyed by `c.id` becomes `c`, other single-item entries are unchanged, and in
the list cache every element whose id equals `c.id` is replaced by `c` while
every element with a different id keeps its value and its position. -/
theorem updateChat_onSuccess_cache (c : TypeChat) (cache : Cache)
    (l : List TypeChat) (h : cache.list = some l) :
    let cache1 := updateChatInCache c cache
    cache1.single c.id = some c
    ∧ (∀ k, k ≠ c.id → cache1.single k = cache.single k)
    ∧ cache1.list = some (l.map fun chat => if chat.id = c.id then c else chat)
    ∧ (∀ (i : Nat) (chat : TypeChat), l[i]? = some chat →
        (l.map fun chat => if chat.id = c.id then c else chat)[i]?
          = some (if chat.id = c.id then c else chat)) := by
  refine ⟨?_, ?_, ?_, ?_⟩
  · simp [updateChatInCache, updateChatListCache]
  · intro k hk
    simp [updateChatInCache, updateChatListCache, hk]
  · simp [updateChatInCache, updateChatListCache, h]
  · intro i chat hi
    simp [List.getElem?_map, hi]

/-- Witness for C8: updating a chat replaces both caches and keeps the other
list element in place. -/
theorem updateChat_onSuccess_cache_witness :
    (⟨some [⟨"c1", "u", "old"⟩, ⟨"c2", "u", "x"⟩], fun _ => none⟩ : Cache).list
      = some [⟨"c1", "u", "old"⟩, ⟨"c2", "u", "x"⟩] ∧
    (updateChatInCache ⟨"c1", "u", "new"⟩
        ⟨some [⟨"c1", "u", "old"⟩, ⟨"c2", "u", "x"⟩], fun _ => none⟩).single "c1"
      = some ⟨"c1", "u", "new"⟩ ∧
    (updateChatInCache ⟨"c1", "u", "new"⟩
        ⟨some [⟨"c1", "u", "old"⟩, ⟨"c2", "u", "x"⟩], fun _ => none⟩).list
      = some [⟨"c1", "u", "new"⟩, ⟨"c2", "u", "x"⟩] := by
  refine ⟨rfl, ?_, ?_⟩
  · exact (updateChat_onSuccess_cache ⟨"c1", "u", "new"⟩
      ⟨some [⟨"c1", "u", "old"⟩, ⟨"c2", "u", "x"⟩], fun _ => none⟩
      [⟨"c1", "u", "old"⟩, ⟨"c2", "u", "x"⟩] rfl).1
  · exact ((updateChat_onSuccess_cache ⟨"c1", "u", "new"⟩
      ⟨some [⟨"c1", "u", "old"⟩, ⟨"c2", "u", "x"⟩], fun _ => none⟩
      [⟨"c1", "u", "old"⟩, ⟨"c2", "u", "x"⟩] rfl).2.2.1).trans (by decide)

end ChatApp
